import Mathlib

/-!
Verification of `trustyai_tests/setup/setup_cluster.py`.

The script sequences four poll loops and a handful of cluster API calls.
We embed it shallowly: each cluster probe (list catalog sources, list
package manifests, list pods in a namespace) is an oracle function passed
in as a parameter; each `while`-loop of the source becomes a structurally
recursive Lean function whose fuel argument is the number of loop
iterations the `tries > bound` check still allows, so that every
definition evaluates by `decide`/`rfl`.  Machine integers do not overflow
here (all counters are small naturals), so `Nat` is used throughout.
Logging inside the loops is pure observability and is not modelled; the
two `logger.error` calls of `setup_cluster`'s `except` clause are
modelled as trace actions because a claim refers to them.
-/

namespace SetupCluster

/-- RECHECK_INTERVAL constant of the source (seconds between probes). -/
def RECHECK_INTERVAL : Nat := 5

/-- OperatorSpec: one entry of the operator configuration document
(`operators_config.yaml`): name, channel, catalogSource, namespace,
version, correspondingPods.  `namespace` is a Lean keyword, hence the
field name `nspace`. -/
structure OperatorSpec where
  name : String
  channel : String
  catalogSource : String
  nspace : String
  version : String
  correspondingPods : List String
deriving DecidableEq, Repr

/-! ## wait_for_catalog_sources (lines 28-49)

The loop body, in source order: probe the catalog-source names; on a hit
`break` (success); otherwise sleep; if `tries > 300 // RECHECK_INTERVAL`
raise `TimeoutError`; `tries += 1`.  `catalogGo probe tries n` runs that
loop from counter value `tries` while the timeout check still lets
`n` further iterations begin; the top-level call uses
`n = 300 / RECHECK_INTERVAL + 1`, so the final iteration runs with
`tries = 300 / RECHECK_INTERVAL + 1`, probes once more, and raises if
that probe misses.  Both outcomes report the final value of `tries`. -/

/-- One catalog-source poll loop.  `Except.ok t`: the probe at attempt
`t` hit and the loop broke out.  `Except.error t`: the probe at attempt
`t` missed and `tries > bound` held, so `TimeoutError` was raised. -/
def catalogGo (probe : Nat → Bool) (tries : Nat) : Nat → Except Nat Nat
  | 0 => if probe tries then Except.ok tries else Except.error tries
  | n + 1 => if probe tries then Except.ok tries else catalogGo probe (tries + 1) n

/-- Distinct catalog-source names:
`{o['catalogSource'] for o in operator_data}` is a Python set; iteration
order of a set is arbitrary, we fix first-occurrence order. -/
def sourceNames (operator_data : List OperatorSpec) : List String :=
  (operator_data.map (·.catalogSource)).eraseDups

/-- Loop of line 35: one `catalogGo` per distinct source, in order;
`env i t` is the list of catalog-source names the probe at attempt `t`
of source number `i` returns. -/
def waitCatalogAux (env : Nat → Nat → List String) : Nat → List String → Except String Unit
  | _, [] => Except.ok ()
  | i, name :: rest =>
    match catalogGo (fun t => decide (name ∈ env i t)) 0 (300 / RECHECK_INTERVAL + 1) with
    | Except.ok _ => waitCatalogAux env (i + 1) rest
    | Except.error _ => Except.error ("Catalog Source " ++ name ++ " not found")

/-- wait_for_catalog_sources: for every distinct catalogSource of the
configuration, poll until its name is listed, bound
`300 // RECHECK_INTERVAL`. -/
def wait_for_catalog_sources (operator_data : List OperatorSpec)
    (env : Nat → Nat → List String) : Except String Unit :=
  waitCatalogAux env 0 (sourceNames operator_data)

/-- Number of probe calls (listings of catalog sources) the loop for one
source issues: the final `tries` value plus one, whether it broke out or
raised. -/
def catalogProbes (probe : Nat → Bool) : Nat :=
  match catalogGo probe 0 (300 / RECHECK_INTERVAL + 1) with
  | Except.ok t => t + 1
  | Except.error t => t + 1

/-! Basic facts about `catalogGo`. -/

theorem catalogGo_error_eq (probe : Nat → Bool) :
    ∀ n tries t, catalogGo probe tries n = Except.error t → t = tries + n := by
  intro n
  induction n with
  | zero =>
    intro tries t h
    simp only [catalogGo] at h
    split at h
    · exact absurd h (by simp)
    · have : tries = t := by simpa using h
      omega
  | succ n ih =>
    intro tries t h
    simp only [catalogGo] at h
    split at h
    · exact absurd h (by simp)
    · have := ih (tries + 1) t h
      omega

theorem catalogGo_ok_le (probe : Nat → Bool) :
    ∀ n tries t, catalogGo probe tries n = Except.ok t → tries ≤ t ∧ t ≤ tries + n := by
  intro n
  induction n with
  | zero =>
    intro tries t h
    simp only [catalogGo] at h
    split at h
    · have : tries = t := by simpa using h
      omega
    · exact absurd h (by simp)
  | succ n ih =>
    intro tries t h
    simp only [catalogGo] at h
    split at h
    · have : tries = t := by simpa using h
      omega
    · have := ih (tries + 1) t h
      omega

theorem catalogGo_ok_iff (probe : Nat → Bool) :
    ∀ n tries, (∃ t, catalogGo probe tries n = Except.ok t) ↔
      ∃ t, tries ≤ t ∧ t ≤ tries + n ∧ probe t = true := by
  intro n
  induction n with
  | zero =>
    intro tries
    constructor
    · rintro ⟨t, h⟩
      simp only [catalogGo] at h
      split at h
      · rename_i hp
        exact ⟨tries, le_refl _, by omega, hp⟩
      · exact absurd h (by simp)
    · rintro ⟨t, h1, h2, hp⟩
      have : t = tries := by omega
      subst this
      exact ⟨t, by simp [catalogGo, hp]⟩
  | succ n ih =>
    intro tries
    constructor
    · rintro ⟨t, h⟩
      simp only [catalogGo] at h
      split at h
      · rename_i hp
        exact ⟨tries, le_refl _, by omega, hp⟩
      · have ⟨t', h1, h2, hp⟩ := (ih (tries + 1)).mp ⟨t, h⟩
        exact ⟨t', by omega, by omega, hp⟩
    · rintro ⟨t, h1, h2, hp⟩
      by_cases hp0 : probe tries = true
      · exact ⟨tries, by simp [catalogGo, hp0]⟩
      · have ht : tries + 1 ≤ t := by
          rcases Nat.eq_or_lt_of_le h1 with h | h
          · exact absurd (h ▸ hp) hp0
          · omega
        have ⟨t', h'⟩ := (ih (tries + 1)).mpr ⟨t, ht, by omega, hp⟩
        exact ⟨t', by simp [catalogGo, hp0, h']⟩

theorem catalogGo_total (probe : Nat → Bool) :
    ∀ n tries, (∃ t, catalogGo probe tries n = Except.ok t) ∨
      catalogGo probe tries n = Except.error (tries + n) := by
  intro n
  induction n with
  | zero =>
    intro tries
    by_cases hp : probe tries = true
    · exact Or.inl ⟨tries, by simp [catalogGo, hp]⟩
    · exact Or.inr (by simp [catalogGo, hp])
  | succ n ih =>
    intro tries
    by_cases hp : probe tries = true
    · exact Or.inl ⟨tries, by simp [catalogGo, hp]⟩
    · rcases ih (tries + 1) with ⟨t, h⟩ | h
      · exact Or.inl ⟨t, by simp [catalogGo, hp, h]⟩
      · refine Or.inr ?_
        simp only [catalogGo, hp, if_false]
        have e : tries + (n + 1) = tries + 1 + n := by omega
        rw [e]
        exact h

/-! ## wait_for_package_manifests (lines 52-82)

Oracle `env k` is the list of package-manifest names the `k`-th fresh
call to `PackageManifest.get` returns (calls numbered from 0 across the
whole run of the function).  `FetchState` carries the fresh-call counter
and `previous_return_list`.

Loop body, in source order: if `tries == 0` and a previous return list
exists, reuse it, otherwise fetch and cache; scan for the operator name;
if not found sleep; if `tries > 900 // RECHECK_INTERVAL` raise
`TimeoutError` (this check runs even when the scan just succeeded);
`tries += 1`; the `while not found` condition then exits on success.
Hence success is only possible at `tries ≤ 900 / RECHECK_INTERVAL`, and
the raise fires at `tries = 900 / RECHECK_INTERVAL + 1` regardless of
that iteration's scan. -/

/-- Fresh-call counter and the `previous_return_list` cache. -/
structure FetchState where
  k : Nat
  cache : Option (List String)
deriving DecidableEq, Repr

/-- Lines 63-67: produce this attempt's `package_manifests` list and the
next state.  Attempt 0 reuses the cache when one exists; otherwise a
fresh fetch happens and becomes the new cache. -/
def manifestAttempt (env : Nat → List String) (st : FetchState) (tries : Nat) :
    List String × FetchState :=
  if tries = 0 ∧ st.cache.isSome then (st.cache.getD [], st)
  else (env st.k, ⟨st.k + 1, some (env st.k)⟩)

/-- One package-manifest poll loop, fuel = iterations the timeout check
still allows; the top-level call passes `900 / RECHECK_INTERVAL + 1`.
At fuel 0 (that is `tries = bound + 1`) the attempt still happens, then
`TimeoutError` is raised whatever it scanned.  Results carry the final
`tries` and state. -/
def manifestGo (env : Nat → List String) (name : String) (tries : Nat) (st : FetchState) :
    Nat → Except (Nat × FetchState) (Nat × FetchState)
  | 0 =>
    let a := manifestAttempt env st tries
    Except.error (tries, a.2)
  | n + 1 =>
    let a := manifestAttempt env st tries
    if name ∈ a.1 then Except.ok (tries, a.2)
    else manifestGo env name (tries + 1) a.2 n

/-- Loop of line 58: operators in listed order (no dedup), threading the
cache from one operator's loop into the next. -/
def waitManifestsAux (env : Nat → List String) :
    List String → FetchState → Except String Unit
  | [], _ => Except.ok ()
  | name :: rest, st =>
    match manifestGo env name 0 st (900 / RECHECK_INTERVAL + 1) with
    | Except.ok (_, st') => waitManifestsAux env rest st'
    | Except.error _ => Except.error ("Package Manifests for " ++ name ++ " not found")

/-- wait_for_package_manifests: for each operator of the configuration,
poll until a package manifest of matching name is listed, bound
`900 // RECHECK_INTERVAL`, with the first-attempt cache. -/
def wait_for_package_manifests (operator_data : List OperatorSpec)
    (env : Nat → List String) : Except String Unit :=
  waitManifestsAux env (operator_data.map (·.name)) ⟨0, none⟩

/-- Cache-free variant of `manifestGo`: every attempt fetches fresh.
Compared with the cached loop for claim C7. -/
def manifestGoFresh (env : Nat → List String) (name : String) (tries k : Nat) :
    Nat → Except (Nat × Nat) (Nat × Nat)
  | 0 => Except.error (tries, k + 1)
  | n + 1 =>
    if name ∈ env k then Except.ok (tries, k + 1)
    else manifestGoFresh env name (tries + 1) (k + 1) n

/-- Cache-free variant of `waitManifestsAux`. -/
def waitManifestsFreshAux (env : Nat → List String) :
    List String → Nat → Except String Unit
  | [], _ => Except.ok ()
  | name :: rest, k =>
    match manifestGoFresh env name 0 k (900 / RECHECK_INTERVAL + 1) with
    | Except.ok (_, k') => waitManifestsFreshAux env rest k'
    | Except.error _ => Except.error ("Package Manifests for " ++ name ++ " not found")

/-- wait_for_package_manifests with the cache replaced by a fresh fetch
on every attempt (the simplification claim C7 talks about). -/
def wait_for_package_manifests_fresh (operator_data : List OperatorSpec)
    (env : Nat → List String) : Except String Unit :=
  waitManifestsFreshAux env (operator_data.map (·.name)) 0

/-! ## verify_operator_running (lines 104-140)

Pods are listed per namespace: `Pod.get(dyn_client=client,
namespace=operator['namespace'])`.  Oracle `env k ns` is the list the
`k`-th fresh pod listing returns when directed at namespace `ns`.  A
pod's status is a JSON object: the `containerStatuses` key and each
container's `started` key may be absent, in which case the Python
subscript raises `KeyError` (claim C10); we model absence with
`Option`. -/

/-- Errors the script can raise. -/
inductive PyError where
  | fileNotFound (msg : String)
  | yamlError (msg : String)
  | timeout (msg : String)
  | keyError (msg : String)
  | apiError (msg : String)
deriving DecidableEq, Repr

/-- Whether an error is the `TimeoutError` of a poll loop. -/
def PyError.isTimeout : PyError → Bool
  | PyError.timeout _ => true
  | _ => false

/-- One entry of a pod status's `containerStatuses` list; the `started`
key may be absent. -/
structure ContainerStatus where
  started : Option Bool
deriving DecidableEq, Repr

/-- A probed pod: its name and the `containerStatuses` entry of its
status, absent when the status JSON lacks that key. -/
structure PodInfo where
  name : String
  containerStatuses : Option (List ContainerStatus)
deriving DecidableEq, Repr

/-- Python's substring test `needle in hay`. -/
def isSubstr (needle hay : List Char) : Bool :=
  if needle.isPrefixOf hay then true
  else
    match hay with
    | [] => false
    | _ :: t => isSubstr needle t

/-- Python's `needle in hay` on strings. -/
def strIn (needle hay : String) : Bool :=
  isSubstr needle.data hay.data

/-- Lines 124-125:
`sum([1 for container in pod.exists.status['containerStatuses'] if container['started']])`.
A missing `containerStatuses` key, or a missing `started` key on any
container, raises `KeyError`; every container is visited, so the error
fires even past containers already counted. -/
def numRunningContainers (pod : PodInfo) : Except String Nat :=
  match pod.containerStatuses with
  | none => Except.error "containerStatuses"
  | some cs =>
    cs.foldl
      (fun acc c =>
        match acc, c.started with
        | Except.error m, _ => Except.error m
        | Except.ok _, none => Except.error "started"
        | Except.ok n, some b => Except.ok (if b then n + 1 else n))
      (Except.ok 0)

/-- Lines 123-131: scan the probed pods in order; for each pod the
container count is computed first (and can raise `KeyError`), then
`target_pod_name in pod.name and num_running_containers == 1` breaks the
scan with success.  Pods after the first match are never examined. -/
def scanPods (target : String) : List PodInfo → Except String Bool
  | [] => Except.ok false
  | pod :: rest =>
    match numRunningContainers pod with
    | Except.error m => Except.error m
    | Except.ok n =>
      if strIn target pod.name ∧ n = 1 then Except.ok true
      else scanPods target rest

/-- Fresh-call counter and the `previous_return_list` cache of
verify_operator_running. -/
structure PodFetchState where
  k : Nat
  cache : Option (List PodInfo)
deriving DecidableEq, Repr

/-- Lines 117-121: this attempt's `running_pods` list and next state;
attempt 0 reuses the cache when one exists — even when the cache was
fetched from a different operator's namespace (claim C9). -/
def podAttempt (env : Nat → String → List PodInfo) (nspace : String)
    (st : PodFetchState) (tries : Nat) : List PodInfo × PodFetchState :=
  if tries = 0 ∧ st.cache.isSome then (st.cache.getD [], st)
  else (env st.k nspace, ⟨st.k + 1, some (env st.k nspace)⟩)

/-- One pod poll loop.  The timeout bound is
`RECHECK_INTERVAL // RECHECK_INTERVAL` (line 136), so the top-level call
passes fuel `RECHECK_INTERVAL / RECHECK_INTERVAL + 1`.  As in the
manifests loop the `tries > bound` check runs even on the iteration
whose scan succeeded, and the attempt at fuel 0 still probes and scans
before raising.  A `KeyError` from the scan propagates immediately.
Errors carry the raised error, the final `tries` and the state. -/
def podGo (env : Nat → String → List PodInfo) (nspace target : String)
    (tries : Nat) (st : PodFetchState) :
    Nat → Except (PyError × Nat × PodFetchState) (Nat × PodFetchState)
  | 0 =>
    let a := podAttempt env nspace st tries
    (match scanPods target a.1 with
     | Except.error m => Except.error (PyError.keyError m, tries, a.2)
     | Except.ok _ =>
       Except.error (PyError.timeout ("Timeout waiting for " ++ target ++ " pod"), tries, a.2))
  | n + 1 =>
    let a := podAttempt env nspace st tries
    (match scanPods target a.1 with
     | Except.error m => Except.error (PyError.keyError m, tries, a.2)
     | Except.ok true => Except.ok (tries, a.2)
     | Except.ok false => podGo env nspace target (tries + 1) a.2 n)

/-- Loop of line 111: one `podGo` per expected pod-name substring of one
operator, threading the cache. -/
def verifyTargets (env : Nat → String → List PodInfo) (nspace : String) :
    List String → PodFetchState → Except PyError PodFetchState
  | [], st => Except.ok st
  | target :: rest, st =>
    match podGo env nspace target 0 st (RECHECK_INTERVAL / RECHECK_INTERVAL + 1) with
    | Except.ok (_, st') => verifyTargets env nspace rest st'
    | Except.error (e, _, _) => Except.error e

/-- Loop of line 110: operators in listed order, the cache carried from
one operator's last fetch into the next operator's first attempt. -/
def verifyOps (env : Nat → String → List PodInfo) :
    List OperatorSpec → PodFetchState → Except PyError Unit
  | [], _ => Except.ok ()
  | op :: rest, st =>
    match verifyTargets env op.nspace op.correspondingPods st with
    | Except.ok st' => verifyOps env rest st'
    | Except.error e => Except.error e

/-- verify_operator_running: for each operator and each of its
correspondingPods substrings, poll the operator's namespace until a pod
matches the substring with exactly one started container. -/
def verify_operator_running (operator_data : List OperatorSpec)
    (env : Nat → String → List PodInfo) : Except PyError Unit :=
  verifyOps env operator_data ⟨0, none⟩

/-- Cache-free variant of `podGo`: every attempt fetches fresh from the
current operator's namespace. -/
def podGoFresh (env : Nat → String → List PodInfo) (nspace target : String)
    (tries k : Nat) : Nat → Except (PyError × Nat × Nat) (Nat × Nat)
  | 0 =>
    (match scanPods target (env k nspace) with
     | Except.error m => Except.error (PyError.keyError m, tries, k + 1)
     | Except.ok _ =>
       Except.error (PyError.timeout ("Timeout waiting for " ++ target ++ " pod"), tries, k + 1))
  | n + 1 =>
    (match scanPods target (env k nspace) with
     | Except.error m => Except.error (PyError.keyError m, tries, k + 1)
     | Except.ok true => Except.ok (tries, k + 1)
     | Except.ok false => podGoFresh env nspace target (tries + 1) (k + 1) n)

/-- Cache-free variant of `verifyTargets`. -/
def verifyTargetsFresh (env : Nat → String → List PodInfo) (nspace : String) :
    List String → Nat → Except PyError Nat
  | [], k => Except.ok k
  | target :: rest, k =>
    match podGoFresh env nspace target 0 k (RECHECK_INTERVAL / RECHECK_INTERVAL + 1) with
    | Except.ok (_, k') => verifyTargetsFresh env nspace rest k'
    | Except.error (e, _, _) => Except.error e

/-- Cache-free variant of `verifyOps`. -/
def verifyOpsFresh (env : Nat → String → List PodInfo) :
    List OperatorSpec → Nat → Except PyError Unit
  | [], _ => Except.ok ()
  | op :: rest, k =>
    match verifyTargetsFresh env op.nspace op.correspondingPods k with
    | Except.ok k' => verifyOpsFresh env rest k'
    | Except.error e => Except.error e

/-- verify_operator_running with the cache replaced by a fresh fetch on
every attempt (the simplification claim C7 talks about). -/
def verify_operator_running_fresh (operator_data : List OperatorSpec)
    (env : Nat → String → List PodInfo) : Except PyError Unit :=
  verifyOpsFresh env operator_data 0

/-! ## install_datascience_cluster template substitution (lines 157-159)

`template.replace("TRUSTYAI_REPO_PLACEHOLDER", trustyai_manifests_url)`.
Python's `str.replace` substitutes leftmost non-overlapping occurrences.
`pyReplace` models it on character lists for a non-empty token (the
placeholder is non-empty, so the empty-token corner of `str.replace`
never arises; for an empty token `pyReplace` leaves the string
unchanged, which is irrelevant to the call site). -/

/-- The placeholder token of `manifests/dsc_template.yaml`. -/
def PLACEHOLDER : List Char := "TRUSTYAI_REPO_PLACEHOLDER".data

/-- Python `s.replace(tok, url)` for non-empty `tok`, on char lists:
scan left to right; where `tok` is a prefix, emit `url` and skip past
the occurrence; otherwise copy one char. -/
def pyReplace (tok url : List Char) (s : List Char) : List Char :=
  if h : tok ≠ [] ∧ tok.isPrefixOf s then
    url ++ pyReplace tok url (s.drop tok.length)
  else
    match s with
    | [] => []
    | c :: rest => c :: pyReplace tok url rest
termination_by s.length
decreasing_by
  · have hp : tok <+: s := List.isPrefixOf_iff_prefix.mp h.2
    have hle : tok.length ≤ s.length := hp.length_le
    have hpos : 0 < tok.length := List.length_pos.mpr h.1
    simp only [List.length_drop]
    omega
  · simp

/-- The leftmost non-overlapping split of `s` along `tok`: the pieces
between (and around) the occurrences `pyReplace` rewrites. -/
def splitTok (tok : List Char) (s : List Char) : List (List Char) :=
  if h : tok ≠ [] ∧ tok.isPrefixOf s then
    [] :: splitTok tok (s.drop tok.length)
  else
    match s with
    | [] => [[]]
    | c :: rest =>
      match splitTok tok rest with
      | [] => [[c]]
      | p :: ps => (c :: p) :: ps
termination_by s.length
decreasing_by
  · have hp : tok <+: s := List.isPrefixOf_iff_prefix.mp h.2
    have hle : tok.length ≤ s.length := hp.length_le
    have hpos : 0 < tok.length := List.length_pos.mpr h.1
    simp only [List.length_drop]
    omega
  · simp

/-- Join pieces with a separator between consecutive pieces. -/
def joinWith (sep : List Char) : List (List Char) → List Char
  | [] => []
  | [p] => p
  | p :: q :: ps => p ++ sep ++ joinWith sep (q :: ps)

/-- Line 159: the document submitted as the DataScienceCluster, the
template with the placeholder replaced by the manifests URL. -/
def dscConfig (template url : List Char) : List Char :=
  pyReplace PLACEHOLDER url template

/-! ## install_operators, install_dsci, install_datascience_cluster and
setup_cluster (lines 85-101, 143-163, 167-187)

The outward-facing cluster mutations become trace `Action`s; results of
the underlying SDK calls are oracles carried by `World`.  The two
`logger.error` calls in `setup_cluster`'s `except FileNotFoundError`
clause are traced because claim C8 mentions them; in-loop logging is
observability only and is not modelled. -/

/-- Outward-facing effects of the run. -/
inductive Action where
  | logError (msg : String)
  | installOperator (name channel source nspace startingCSV : String)
  | createDSCI
  | createDSC (config : List Char)
deriving DecidableEq, Repr

/-- install_operators (lines 85-101): one `install_operator` call per
operator, in listed order, `starting_csv = name ++ ".v" ++ version`
(install-plan approval `Manual` and the 600 s timeout are fixed
arguments of every call and carry no information, so they are not
traced).  A failing call halts the list; its call was still issued. -/
def install_operators (installResult : String → Except String Unit) :
    List OperatorSpec → Except String Unit × List Action
  | [] => (Except.ok (), [])
  | op :: rest =>
    let act := Action.installOperator op.name op.channel op.catalogSource op.nspace
      (op.name ++ ".v" ++ op.version)
    match installResult op.name with
    | Except.error m => (Except.error m, [act])
    | Except.ok _ =>
      let r := install_operators installResult rest
      (r.1, act :: r.2)

/-- install_dsci (lines 143-149): one create call from a fixed local
template. -/
def install_dsci (dsciResult : Except String Unit) :
    Except String Unit × List Action :=
  (dsciResult, [Action.createDSCI])

/-- install_datascience_cluster (lines 152-163): substitute the
manifests URL into the template, then one create call with the
substituted document. -/
def install_datascience_cluster (template url : List Char)
    (dscResult : Except String Unit) : Except String Unit × List Action :=
  (dscResult, [Action.createDSC (dscConfig template url)])

/-- The collaborators of one run: the parsed configuration (or the error
reading it raised), the three probe oracles, and the results of the five
mutation calls. -/
structure World where
  configResult : Except PyError (List OperatorSpec)
  catalogEnv : Nat → Nat → List String
  manifestEnv : Nat → List String
  podEnv : Nat → String → List PodInfo
  installResult : String → Except String Unit
  dsciResult : Except String Unit
  dscResult : Except String Unit
  dscTemplate : List Char
  manifestsUrl : List Char

/-- The second message logged when the configuration file is missing
(line 174). -/
def CONFIG_HINT : String :=
  "Operator config yaml not found, make sure your working directory is trustyai-tests/"

/-- setup_cluster (lines 167-187): load the configuration (re-raising a
logged `FileNotFoundError`, propagating any other read error unlogged),
then run the six stages strictly in order, halting at the first
failure.  Returns the run's outcome and the trace of outward-facing
actions. -/
def setup_cluster (w : World) : Except PyError Unit × List Action :=
  match w.configResult with
  | Except.error (PyError.fileNotFound m) =>
    (Except.error (PyError.fileNotFound m), [Action.logError m, Action.logError CONFIG_HINT])
  | Except.error e => (Except.error e, [])
  | Except.ok operator_data =>
    match wait_for_catalog_sources operator_data w.catalogEnv with
    | Except.error m => (Except.error (PyError.timeout m), [])
    | Except.ok _ =>
      match wait_for_package_manifests operator_data w.manifestEnv with
      | Except.error m => (Except.error (PyError.timeout m), [])
      | Except.ok _ =>
        match install_operators w.installResult operator_data with
        | (Except.error m, acts) => (Except.error (PyError.apiError m), acts)
        | (Except.ok _, acts) =>
          match verify_operator_running operator_data w.podEnv with
          | Except.error e => (Except.error e, acts)
          | Except.ok _ =>
            match install_dsci w.dsciResult with
            | (Except.error m, acts') => (Except.error (PyError.apiError m), acts ++ acts')
            | (Except.ok _, acts') =>
              match install_datascience_cluster w.dscTemplate w.manifestsUrl w.dscResult with
              | (Except.error m, acts'') =>
                (Except.error (PyError.apiError m), acts ++ acts' ++ acts'')
              | (Except.ok _, acts'') => (Except.ok (), acts ++ acts' ++ acts'')

/-! ## Concrete inputs used by counterexamples and witnesses -/

deriving instance DecidableEq for Except

/-- A one-operator configuration. -/
def cexOps : List OperatorSpec := [⟨"opA", "alpha", "srcA", "nsA", "1.0", ["podA"]⟩]

/-- Probes that never list anything. -/
def cexEnvEmpty : Nat → Nat → List String := fun _ _ => []

/-- Probes that always list the one catalog source of `cexOps`. -/
def cexEnvGood : Nat → Nat → List String := fun _ _ => ["srcA"]

/-- The pod of claim C4, with one started container. -/
def c4PodStarted : PodInfo := ⟨"trustyai-operator-abc", some [⟨some true⟩]⟩

/-- The pod of claim C4, with zero started containers. -/
def c4PodNotStarted : PodInfo := ⟨"trustyai-operator-abc", some [⟨some false⟩]⟩

/-- An operator expecting a pod whose name contains "trustyai-operator". -/
def c4Op : OperatorSpec := ⟨"trustyai", "ch", "src", "nsA", "1.0", ["trustyai-operator"]⟩

/-- Two operators whose manifests are probed in order. -/
def c7Ops : List OperatorSpec := [⟨"a", "ch", "src", "ns", "v", []⟩, ⟨"b", "ch", "src", "ns", "v", []⟩]

/-- A probe sequence that lists both manifests on the very first fetch
and nothing afterwards: the cached run still sees "b" on the second
operator's attempt 0, a fresh-fetching run does not. -/
def c7Env : Nat → List String := fun k => if k = 0 then ["a", "b"] else []

/-- A world whose package-manifest probes never succeed. -/
def c6World : World :=
  ⟨Except.ok cexOps, cexEnvGood, fun _ => [], fun _ _ => [],
    fun _ => Except.ok (), Except.ok (), Except.ok (), [], []⟩

/-- A world whose configuration file is missing. -/
def c8World : World :=
  ⟨Except.error (PyError.fileNotFound "no such file"), cexEnvGood, fun _ => [], fun _ _ => [],
    fun _ => Except.ok (), Except.ok (), Except.ok (), [], []⟩

/-! ## Helper lemmas about the loop iterators -/

theorem manifestGo_error_eq (env : Nat → List String) (name : String) :
    ∀ n tries st r, manifestGo env name tries st n = Except.error r → r.1 = tries + n := by
  intro n
  induction n with
  | zero =>
    intro tries st r h
    simp only [manifestGo, Except.error.injEq] at h
    rw [← h]
    rfl
  | succ n ih =>
    intro tries st r h
    simp only [manifestGo] at h
    split at h
    · exact absurd h (by simp)
    · have := ih (tries + 1) _ r h
      omega

theorem manifestGo_ok_bound (env : Nat → List String) (name : String) :
    ∀ n tries st r, manifestGo env name tries st n = Except.ok r →
      tries ≤ r.1 ∧ r.1 < tries + n := by
  intro n
  induction n with
  | zero =>
    intro tries st r h
    exact absurd h (by simp [manifestGo])
  | succ n ih =>
    intro tries st r h
    simp only [manifestGo] at h
    split at h
    · simp only [Except.ok.injEq] at h
      rw [← h]
      exact ⟨le_refl _, by omega⟩
    · have := ih (tries + 1) _ r h
      omega

theorem podGo_timeout_eq (env : Nat → String → List PodInfo) (nspace target : String) :
    ∀ n tries st e t st', podGo env nspace target tries st n = Except.error (e, t, st') →
      e.isTimeout = true → t = tries + n := by
  intro n
  induction n with
  | zero =>
    intro tries st e t st' h ht
    simp only [podGo] at h
    split at h
    · simp only [Except.error.injEq, Prod.mk.injEq] at h
      rw [← h.1] at ht
      simp [PyError.isTimeout] at ht
    · simp only [Except.error.injEq, Prod.mk.injEq] at h
      omega
  | succ n ih =>
    intro tries st e t st' h ht
    simp only [podGo] at h
    split at h
    · simp only [Except.error.injEq, Prod.mk.injEq] at h
      rw [← h.1] at ht
      simp [PyError.isTimeout] at ht
    · exact absurd h (by simp)
    · have := ih (tries + 1) _ e t st' h ht
      omega

/-! ## Claim theorems -/

/-- Claim C1: every poll loop raises its Timeout error exactly when the
attempt counter `tries` exceeds maxWaitDuration / intervalSeconds — at
`tries = bound + 1`, never at `tries ≤ bound` and never later — with
bound `300 / 5` for wait_for_catalog_sources, `900 / 5` for
wait_for_package_manifests, and `5 / 5` for the loop of
verify_operator_running; success exits only at attempt counts the bound
admits. -/
theorem poll_timeout_exactly_when_tries_exceed_bound :
    (∀ (probe : Nat → Bool) (t : Nat),
        catalogGo probe 0 (300 / RECHECK_INTERVAL + 1) = Except.error t →
        t = 300 / RECHECK_INTERVAL + 1) ∧
    (∀ (probe : Nat → Bool) (t : Nat),
        catalogGo probe 0 (300 / RECHECK_INTERVAL + 1) = Except.ok t →
        t ≤ 300 / RECHECK_INTERVAL + 1) ∧
    (∀ (env : Nat → List String) (name : String) (st : FetchState) (r : Nat × FetchState),
        manifestGo env name 0 st (900 / RECHECK_INTERVAL + 1) = Except.error r →
        r.1 = 900 / RECHECK_INTERVAL + 1) ∧
    (∀ (env : Nat → List String) (name : String) (st : FetchState) (r : Nat × FetchState),
        manifestGo env name 0 st (900 / RECHECK_INTERVAL + 1) = Except.ok r →
        r.1 ≤ 900 / RECHECK_INTERVAL) ∧
    (∀ (env : Nat → String → List PodInfo) (nspace target : String) (st : PodFetchState)
        (e : PyError) (t : Nat) (st' : PodFetchState),
        podGo env nspace target 0 st (RECHECK_INTERVAL / RECHECK_INTERVAL + 1) =
          Except.error (e, t, st') → e.isTimeout = true →
        t = RECHECK_INTERVAL / RECHECK_INTERVAL + 1) := by
  refine ⟨?_, ?_, ?_, ?_, ?_⟩
  · intro probe t h
    have := catalogGo_error_eq probe (300 / RECHECK_INTERVAL + 1) 0 t h
    omega
  · intro probe t h
    have := catalogGo_ok_le probe (300 / RECHECK_INTERVAL + 1) 0 t h
    omega
  · intro env name st r h
    have := manifestGo_error_eq env name (900 / RECHECK_INTERVAL + 1) 0 st r h
    omega
  · intro env name st r h
    have := manifestGo_ok_bound env name (900 / RECHECK_INTERVAL + 1) 0 st r h
    omega
  · intro env nspace target st e t st' h ht
    have := podGo_timeout_eq env nspace target (RECHECK_INTERVAL / RECHECK_INTERVAL + 1)
      0 st e t st' h ht
    omega

/-- Witness for C1: a probe that never succeeds makes the catalog loop
raise at `tries = 300 / 5 + 1 = 61`. -/
theorem poll_timeout_exactly_when_tries_exceed_bound_witness :
    (61 : Nat) = 300 / RECHECK_INTERVAL + 1 :=
  poll_timeout_exactly_when_tries_exceed_bound.1 (fun _ => false) 61 (by decide)

theorem waitCatalogAux_ok_iff (env : Nat → Nat → List String) :
    ∀ (names : List String) (i : Nat),
      waitCatalogAux env i names = Except.ok () ↔
        ∀ j, j < names.length →
          ∃ t, t ≤ 300 / RECHECK_INTERVAL + 1 ∧ names.getD j "" ∈ env (i + j) t := by
  intro names
  induction names with
  | nil =>
    intro i
    simp [waitCatalogAux]
  | cons name rest ih =>
    intro i
    rcases catalogGo_total (fun t => decide (name ∈ env i t)) (300 / RECHECK_INTERVAL + 1) 0
      with ⟨t0, hok⟩ | herr
    · simp only [waitCatalogAux, hok]
      rw [ih (i + 1)]
      constructor
      · intro hrest j hj
        cases j with
        | zero =>
          obtain ⟨t, ht1, ht2, hp⟩ := (catalogGo_ok_iff _ _ 0).mp ⟨t0, hok⟩
          refine ⟨t, by omega, ?_⟩
          simpa using of_decide_eq_true hp
        | succ j' =>
          obtain ⟨t, ht, hmem⟩ := hrest j' (by simpa using hj)
          refine ⟨t, ht, ?_⟩
          have e : i + (j' + 1) = i + 1 + j' := by omega
          rw [e]
          simpa using hmem
      · intro hall j hj
        obtain ⟨t, ht, hmem⟩ := hall (j + 1) (by simpa using hj)
        refine ⟨t, ht, ?_⟩
        have e : i + 1 + j = i + (j + 1) := by omega
        rw [e]
        simpa using hmem
    · simp only [waitCatalogAux, herr]
      constructor
      · intro h
        exact absurd h (by simp)
      · intro hall
        obtain ⟨t, ht, hmem⟩ := hall 0 (by simp)
        obtain ⟨t', h'⟩ := (catalogGo_ok_iff (fun t => decide (name ∈ env i t))
          (300 / RECHECK_INTERVAL + 1) 0).mpr
          ⟨t, Nat.zero_le t, by omega, by simpa using hmem⟩
        rw [herr] at h'
        exact absurd h' (by simp)

/-- Claim C2, amended: the loop for one awaited catalog source issues at
most `300/5 + 2 = 62` probe calls — not 61: on the timeout path it
probes at `tries = 0 .. 61`, which is 62 listings — and
wait_for_catalog_sources succeeds iff every distinct catalogSource name
of the configuration appears in some set its loop probes (an attempt
`t ≤ 300/5 + 1` of that source's loop whose listing carries the name). -/
theorem wait_catalog_probe_bound_and_success_iff (ops : List OperatorSpec)
    (env : Nat → Nat → List String) :
    (∀ probe : Nat → Bool, catalogProbes probe ≤ 300 / RECHECK_INTERVAL + 2) ∧
    (wait_for_catalog_sources ops env = Except.ok () ↔
      ∀ j, j < (sourceNames ops).length →
        ∃ t, t ≤ 300 / RECHECK_INTERVAL + 1 ∧ (sourceNames ops).getD j "" ∈ env j t) := by
  constructor
  · intro probe
    unfold catalogProbes
    rcases catalogGo_total probe (300 / RECHECK_INTERVAL + 1) 0 with ⟨t, h⟩ | h
    · have hb := catalogGo_ok_le probe (300 / RECHECK_INTERVAL + 1) 0 t h
      simp only [h]
      omega
    · simp only [h]
      omega
  · have := waitCatalogAux_ok_iff env (sourceNames ops) 0
    simpa [wait_for_catalog_sources] using this

/-- Counterexample to C2 as stated: with a probe that never lists the
awaited source, the loop issues `300/5 + 2 = 62` probe calls, exceeding
the claimed bound of `300/5 + 1 = 61`. -/
theorem catalog_probe_count_counterexample :
    catalogProbes (fun t => decide ("srcA" ∈ cexEnvEmpty 0 t)) = 300 / RECHECK_INTERVAL + 2 ∧
    ¬ (300 / RECHECK_INTERVAL + 2 ≤ 300 / RECHECK_INTERVAL + 1) ∧
    wait_for_catalog_sources cexOps cexEnvEmpty =
      Except.error "Catalog Source srcA not found" := by
  exact ⟨by decide, by decide, by decide⟩

/-- Witness for C2: with the source always listed, the success
characterization applies and the wait returns success. -/
theorem wait_catalog_probe_bound_and_success_iff_witness :
    wait_for_catalog_sources cexOps cexEnvGood = Except.ok () :=
  (wait_catalog_probe_bound_and_success_iff cexOps cexEnvGood).2.mpr (by decide)

/-- Claim C3, amended: the per-target loop of verify_operator_running
has bound `RECHECK_INTERVAL // RECHECK_INTERVAL = 1`, so for a target
whose matching pod never appears it makes three probe attempts (at
`tries = 0, 1, 2`, sleeping one recheck interval after each) and raises
Timeout at `tries = 2` — a fixed three-attempt, three-interval budget
rather than the claimed single attempt within one interval; it remains
true that the budget is degenerate and not the intended
wait-duration/interval quotient. -/
theorem verify_timeout_three_attempts :
    (∀ (env : Nat → String → List PodInfo) (nspace target : String) (st : PodFetchState)
        (e : PyError) (t : Nat) (st' : PodFetchState),
        podGo env nspace target 0 st (RECHECK_INTERVAL / RECHECK_INTERVAL + 1) =
          Except.error (e, t, st') → e.isTimeout = true → t = 2) ∧
    (∀ nspace target : String,
        podGo (fun _ _ => []) nspace target 0 ⟨0, none⟩ (RECHECK_INTERVAL / RECHECK_INTERVAL + 1) =
          Except.error (PyError.timeout ("Timeout waiting for " ++ target ++ " pod"), 2,
            ⟨3, some []⟩)) := by
  constructor
  · intro env nspace target st e t st' h ht
    have h1 := podGo_timeout_eq env nspace target (RECHECK_INTERVAL / RECHECK_INTERVAL + 1)
      0 st e t st' h ht
    have h2 : RECHECK_INTERVAL / RECHECK_INTERVAL = 1 := by decide
    omega
  · intro nspace target
    rfl

/-- Counterexample to C3 as stated: for a pod target that never appears
the loop raises Timeout at `tries = 2`, after three probe attempts and
three interval sleeps, not after a single attempt within one interval. -/
theorem verify_three_attempts_counterexample :
    podGo (fun _ _ => []) "nsA" "podA" 0 ⟨0, none⟩ (RECHECK_INTERVAL / RECHECK_INTERVAL + 1) =
      Except.error (PyError.timeout "Timeout waiting for podA pod", 2, ⟨3, some []⟩) ∧
    (2 : Nat) ≠ 0 ∧
    verify_operator_running cexOps (fun _ _ => []) =
      Except.error (PyError.timeout "Timeout waiting for podA pod") := by
  exact ⟨by decide, by decide, by decide⟩

/-- Witness for C3: the never-matching probe from the second conjunct
instantiates the first at a concrete input. -/
theorem verify_timeout_three_attempts_witness : (2 : Nat) = 2 :=
  verify_timeout_three_attempts.1 (fun _ _ => []) "nsA" "podA" ⟨0, none⟩
    (PyError.timeout "Timeout waiting for podA pod") 2 ⟨3, some []⟩ (by decide) (by decide)

/-- Claim C4: with the probed pod set holding pod
"trustyai-operator-abc" with one started container,
verify_operator_running reports target "trustyai-operator" ready; with
the same pod carrying zero started containers and nothing else
matching, the loop for that target raises Timeout. -/
theorem verify_trustyai_pod_ready_and_timeout :
    verify_operator_running [c4Op] (fun _ _ => [c4PodStarted]) = Except.ok () ∧
    verify_operator_running [c4Op] (fun _ _ => [c4PodNotStarted]) =
      Except.error (PyError.timeout "Timeout waiting for trustyai-operator pod") := by
  exact ⟨by decide, by decide⟩

theorem splitTok_ne_nil (tok s : List Char) : splitTok tok s ≠ [] := by
  rw [splitTok]
  split
  · simp
  · split
    · simp
    · split
      · simp
      · simp

theorem joinWith_splitTok (tok : List Char) (s : List Char) :
    joinWith tok (splitTok tok s) = s := by
  induction s using splitTok.induct tok with
  | case1 s h ih =>
    rw [splitTok, dif_pos h]
    obtain ⟨t, ht⟩ := List.isPrefixOf_iff_prefix.mp h.2
    have hdrop : s.drop tok.length = t := by rw [← ht, List.drop_left]
    rcases hq : splitTok tok (s.drop tok.length) with _ | ⟨q, ps⟩
    · exact absurd hq (splitTok_ne_nil tok _)
    · rw [hq] at ih
      rw [joinWith, List.nil_append, ih, hdrop]
      exact ht
  | case2 h h' =>
    rw [splitTok, dif_neg h]
    rfl
  | case3 c rest h hnil h' ih =>
    exact absurd hnil (splitTok_ne_nil tok rest)
  | case4 c rest h p ps hps h' ih =>
    rw [splitTok, dif_neg h]
    simp only [hps]
    rw [hps] at ih
    cases ps with
    | nil =>
      simp only [joinWith] at ih ⊢
      rw [ih]
    | cons q ps' =>
      rw [joinWith] at ih ⊢
      rw [← ih]
      simp

theorem pyReplace_eq_joinWith (tok url : List Char) (s : List Char) :
    pyReplace tok url s = joinWith url (splitTok tok s) := by
  induction s using splitTok.induct tok with
  | case1 s h ih =>
    rw [pyReplace, dif_pos h, splitTok, dif_pos h]
    rcases hq : splitTok tok (s.drop tok.length) with _ | ⟨q, ps⟩
    · exact absurd hq (splitTok_ne_nil tok _)
    · rw [hq] at ih
      rw [joinWith, List.nil_append, ih]
  | case2 h h' =>
    rw [pyReplace, dif_neg h, splitTok, dif_neg h]
    rfl
  | case3 c rest h hnil h' ih =>
    exact absurd hnil (splitTok_ne_nil tok rest)
  | case4 c rest h p ps hps h' ih =>
    rw [pyReplace, dif_neg h, splitTok, dif_neg h]
    simp only [hps]
    rw [hps] at ih
    cases ps with
    | nil =>
      simp only [joinWith] at ih ⊢
      rw [ih]
    | cons q ps' =>
      rw [joinWith] at ih ⊢
      rw [ih]
      simp

theorem splitTok_head_prefix (tok s p : List Char) (ps : List (List Char))
    (h : splitTok tok s = p :: ps) : p <+: s := by
  have hj := joinWith_splitTok tok s
  rw [h] at hj
  cases ps with
  | nil =>
    simp only [joinWith] at hj
    exact ⟨[], by simp [hj]⟩
  | cons q ps' =>
    rw [joinWith] at hj
    exact ⟨tok ++ joinWith tok (q :: ps'), by rw [← hj]; simp⟩

theorem splitTok_pieces_no_tok (tok : List Char) (htok : tok ≠ []) (s : List Char) :
    ∀ p, p ∈ splitTok tok s → ¬ tok <:+: p := by
  induction s using splitTok.induct tok with
  | case1 s h ih =>
    intro p hp
    rw [splitTok, dif_pos h] at hp
    rcases List.mem_cons.mp hp with rfl | hp'
    · intro hinf
      exact htok (List.infix_nil.mp hinf)
    · exact ih p hp'
  | case2 h h' =>
    intro p hp
    rw [splitTok, dif_neg h] at hp
    simp only [List.mem_singleton] at hp
    subst hp
    intro hinf
    exact htok (List.infix_nil.mp hinf)
  | case3 c rest h hnil h' ih =>
    exact absurd hnil (splitTok_ne_nil tok rest)
  | case4 c rest h p ps hps h' ih =>
    intro q hq
    rw [splitTok, dif_neg h] at hq
    simp only [hps] at hq
    rcases List.mem_cons.mp hq with rfl | hq'
    · intro hinf
      rcases List.infix_cons_iff.mp hinf with hpre | hinf'
      · have hppre : p <+: rest := splitTok_head_prefix tok rest p ps hps
        have hcp : c :: p <+: c :: rest := List.cons_prefix_cons.mpr ⟨rfl, hppre⟩
        have : tok <+: c :: rest := hpre.trans hcp
        exact h ⟨htok, List.isPrefixOf_iff_prefix.mpr this⟩
      · refine ih p ?_ hinf'
        rw [hps]
        exact List.mem_cons_self p ps
    · intro hinf
      refine ih q ?_ hinf
      rw [hps]
      exact List.mem_cons_of_mem p hq'

/-- Claim C5: for every template and every URL not containing the
placeholder token, install_datascience_cluster's substituted document is
the template with the URL in place of each occurrence of the token and
is otherwise byte-identical: both are the same token-free pieces, the
input joined by the token, the output joined by the URL. -/
theorem dsc_template_substitution (template url : List Char)
    (hurl : ¬ PLACEHOLDER <:+: url) :
    template = joinWith PLACEHOLDER (splitTok PLACEHOLDER template) ∧
    dscConfig template url = joinWith url (splitTok PLACEHOLDER template) ∧
    ∀ p ∈ splitTok PLACEHOLDER template, ¬ PLACEHOLDER <:+: p := by
  refine ⟨(joinWith_splitTok PLACEHOLDER template).symm,
    pyReplace_eq_joinWith PLACEHOLDER url template, ?_⟩
  intro p hp
  exact splitTok_pieces_no_tok PLACEHOLDER (by decide) template p hp

/-- Witness for C5: a template with one placeholder occurrence and a
URL free of the token. -/
theorem dsc_template_substitution_witness :
    "uri: TRUSTYAI_REPO_PLACEHOLDER end".data =
      joinWith PLACEHOLDER (splitTok PLACEHOLDER "uri: TRUSTYAI_REPO_PLACEHOLDER end".data) :=
  (dsc_template_substitution "uri: TRUSTYAI_REPO_PLACEHOLDER end".data
    "https://example.test/tarball/main".data (by decide)).1

theorem install_operators_no_creates (f : String → Except String Unit) :
    ∀ (ops : List OperatorSpec),
      (∀ cfg, Action.createDSC cfg ∉ (install_operators f ops).2) ∧
      Action.createDSCI ∉ (install_operators f ops).2 := by
  intro ops
  induction ops with
  | nil =>
    exact ⟨fun cfg => by simp [install_operators], by simp [install_operators]⟩
  | cons op rest ih =>
    simp only [install_operators]
    rcases h : f op.name with m | u
    · exact ⟨fun cfg => by simp [h], by simp [h]⟩
    · refine ⟨fun cfg => ?_, ?_⟩
      · simp only [h, List.mem_cons]
        rintro (hhd | htl)
        · exact absurd hhd (by simp)
        · exact ih.1 cfg htl
      · simp only [h, List.mem_cons]
        rintro (hhd | htl)
        · exact absurd hhd (by simp)
        · exact ih.2 htl

/-- Claim C6: sequencing in setup_cluster is strict: a
wait_for_package_manifests failure leaves the action trace empty — no
install_operator call is ever issued — and any stage failure halts the
run immediately with the error propagated and no later stage's actions
in the trace (and nothing is rolled back: actions already issued stay
in the trace): a catalog or manifests timeout runs nothing, an
install_operator failure stops the install list and prevents both
create calls, a verify_operator_running failure prevents both create
calls, an install_dsci failure leaves the DSCI create as the last
action with no DataScienceCluster create ever issued, and a failing
final DSC create ends the trace. -/
theorem setup_cluster_strict_sequencing (w : World) (ops : List OperatorSpec)
    (hc : w.configResult = Except.ok ops) :
    (∀ m, wait_for_catalog_sources ops w.catalogEnv = Except.error m →
        setup_cluster w = (Except.error (PyError.timeout m), [])) ∧
    (∀ m, wait_for_catalog_sources ops w.catalogEnv = Except.ok () →
        wait_for_package_manifests ops w.manifestEnv = Except.error m →
        setup_cluster w = (Except.error (PyError.timeout m), [])) ∧
    (∀ m acts, wait_for_catalog_sources ops w.catalogEnv = Except.ok () →
        wait_for_package_manifests ops w.manifestEnv = Except.ok () →
        install_operators w.installResult ops = (Except.error m, acts) →
        setup_cluster w = (Except.error (PyError.apiError m), acts) ∧
        (∀ cfg, Action.createDSC cfg ∉ (setup_cluster w).2) ∧
        Action.createDSCI ∉ (setup_cluster w).2) ∧
    (∀ e acts, wait_for_catalog_sources ops w.catalogEnv = Except.ok () →
        wait_for_package_manifests ops w.manifestEnv = Except.ok () →
        install_operators w.installResult ops = (Except.ok (), acts) →
        verify_operator_running ops w.podEnv = Except.error e →
        setup_cluster w = (Except.error e, acts) ∧
        (∀ cfg, Action.createDSC cfg ∉ (setup_cluster w).2) ∧
        Action.createDSCI ∉ (setup_cluster w).2) ∧
    (∀ m acts, wait_for_catalog_sources ops w.catalogEnv = Except.ok () →
        wait_for_package_manifests ops w.manifestEnv = Except.ok () →
        install_operators w.installResult ops = (Except.ok (), acts) →
        verify_operator_running ops w.podEnv = Except.ok () →
        w.dsciResult = Except.error m →
        setup_cluster w = (Except.error (PyError.apiError m), acts ++ [Action.createDSCI]) ∧
        (∀ cfg, Action.createDSC cfg ∉ (setup_cluster w).2)) ∧
    (∀ m acts, wait_for_catalog_sources ops w.catalogEnv = Except.ok () →
        wait_for_package_manifests ops w.manifestEnv = Except.ok () →
        install_operators w.installResult ops = (Except.ok (), acts) →
        verify_operator_running ops w.podEnv = Except.ok () →
        w.dsciResult = Except.ok () →
        w.dscResult = Except.error m →
        setup_cluster w = (Except.error (PyError.apiError m),
          acts ++ [Action.createDSCI,
            Action.createDSC (dscConfig w.dscTemplate w.manifestsUrl)])) := by
  refine ⟨?_, ?_, ?_, ?_, ?_, ?_⟩
  · intro m h1
    simp [setup_cluster, hc, h1]
  · intro m h1 h2
    simp [setup_cluster, hc, h1, h2]
  · intro m acts h1 h2 h3
    have hrun : setup_cluster w = (Except.error (PyError.apiError m), acts) := by
      simp [setup_cluster, hc, h1, h2, h3]
    refine ⟨hrun, fun cfg => ?_, ?_⟩
    · rw [hrun]
      have := (install_operators_no_creates w.installResult ops).1 cfg
      rw [h3] at this
      exact this
    · rw [hrun]
      have := (install_operators_no_creates w.installResult ops).2
      rw [h3] at this
      exact this
  · intro e acts h1 h2 h3 h4
    have hrun : setup_cluster w = (Except.error e, acts) := by
      simp [setup_cluster, hc, h1, h2, h3, h4]
    refine ⟨hrun, fun cfg => ?_, ?_⟩
    · rw [hrun]
      have := (install_operators_no_creates w.installResult ops).1 cfg
      rw [h3] at this
      exact this
    · rw [hrun]
      have := (install_operators_no_creates w.installResult ops).2
      rw [h3] at this
      exact this
  · intro m acts h1 h2 h3 h4 h5
    have hrun : setup_cluster w =
        (Except.error (PyError.apiError m), acts ++ [Action.createDSCI]) := by
      simp [setup_cluster, install_dsci, hc, h1, h2, h3, h4, h5]
    refine ⟨hrun, fun cfg => ?_⟩
    rw [hrun]
    simp only [List.mem_append, List.mem_singleton]
    rintro (hin | hin)
    · have := (install_operators_no_creates w.installResult ops).1 cfg
      rw [h3] at this
      exact this hin
    · exact absurd hin (by simp)
  · intro m acts h1 h2 h3 h4 h5 h6
    simp [setup_cluster, install_dsci, install_datascience_cluster,
      hc, h1, h2, h3, h4, h5, h6]

/-- Witness for C6: in a world whose manifests never appear, the run
fails with the Timeout and issues no action at all. -/
theorem setup_cluster_strict_sequencing_witness :
    setup_cluster c6World =
      (Except.error (PyError.timeout "Package Manifests for opA not found"), []) :=
  (setup_cluster_strict_sequencing c6World cexOps rfl).2.1
    "Package Manifests for opA not found" (by decide) (by decide)

/-- Claim C8: a missing configuration file makes setup_cluster log the
error (both messages of the except clause) and re-raise it, running no
stage; any other configuration read failure also aborts the run
immediately, propagated unlogged. -/
theorem setup_cluster_config_error_fatal (w : World) :
    (∀ m, w.configResult = Except.error (PyError.fileNotFound m) →
        setup_cluster w = (Except.error (PyError.fileNotFound m),
          [Action.logError m, Action.logError CONFIG_HINT])) ∧
    (∀ m, w.configResult = Except.error (PyError.yamlError m) →
        setup_cluster w = (Except.error (PyError.yamlError m), [])) := by
  constructor
  · intro m h
    simp [setup_cluster, h]
  · intro m h
    simp [setup_cluster, h]

/-- Witness for C8: a world whose configuration file is missing. -/
theorem setup_cluster_config_error_fatal_witness :
    setup_cluster c8World = (Except.error (PyError.fileNotFound "no such file"),
      [Action.logError "no such file", Action.logError CONFIG_HINT]) :=
  (setup_cluster_config_error_fatal c8World).1 "no such file" rfl

theorem manifestAttempt_const (env : Nat → List String) (h : ∀ k, env k = env 0)
    (st : FetchState) (tries : Nat)
    (hst : st.cache = none ∨ st.cache = some (env 0)) :
    (manifestAttempt env st tries).1 = env 0 ∧
    ((manifestAttempt env st tries).2.cache = none ∨
      (manifestAttempt env st tries).2.cache = some (env 0)) := by
  unfold manifestAttempt
  split
  · rename_i hcond
    rcases hst with hn | hs
    · rw [hn] at hcond
      simp at hcond
    · exact ⟨by simp [hs], Or.inr hs⟩
  · exact ⟨h st.k, Or.inr (by simp [h st.k])⟩

theorem manifestGo_const_notfound (env : Nat → List String) (h : ∀ k, env k = env 0)
    (name : String) (hnot : name ∉ env 0) :
    ∀ n tries st, (st.cache = none ∨ st.cache = some (env 0)) →
      ∃ st', manifestGo env name tries st n = Except.error (tries + n, st') := by
  intro n
  induction n with
  | zero =>
    intro tries st hst
    exact ⟨(manifestAttempt env st tries).2, rfl⟩
  | succ n ih =>
    intro tries st hst
    have ha := manifestAttempt_const env h st tries hst
    simp only [manifestGo]
    rw [if_neg (by rw [ha.1]; exact hnot)]
    obtain ⟨st', h'⟩ := ih (tries + 1) _ ha.2
    refine ⟨st', ?_⟩
    rw [h']
    have e : tries + 1 + n = tries + (n + 1) := by omega
    rw [e]

theorem manifestGo_const_found (env : Nat → List String) (h : ∀ k, env k = env 0)
    (name : String) (hin : name ∈ env 0) (n tries : Nat) (st : FetchState)
    (hst : st.cache = none ∨ st.cache = some (env 0)) :
    manifestGo env name tries st (n + 1) = Except.ok (tries, (manifestAttempt env st tries).2) := by
  have ha := manifestAttempt_const env h st tries hst
  simp only [manifestGo]
  rw [if_pos (by rw [ha.1]; exact hin)]

theorem manifestGoFresh_const_notfound (env : Nat → List String) (h : ∀ k, env k = env 0)
    (name : String) (hnot : name ∉ env 0) :
    ∀ n tries k, ∃ r, manifestGoFresh env name tries k n = Except.error r := by
  intro n
  induction n with
  | zero =>
    intro tries k
    exact ⟨(tries, k + 1), rfl⟩
  | succ n ih =>
    intro tries k
    simp only [manifestGoFresh]
    rw [if_neg (by rw [h k]; exact hnot)]
    exact ih (tries + 1) (k + 1)

theorem manifestGoFresh_const_found (env : Nat → List String) (h : ∀ k, env k = env 0)
    (name : String) (hin : name ∈ env 0) (n tries k : Nat) :
    manifestGoFresh env name tries k (n + 1) = Except.ok (tries, k + 1) := by
  simp only [manifestGoFresh]
  rw [if_pos (by rw [h k]; exact hin)]

theorem waitManifestsAux_const (env : Nat → List String) (h : ∀ k, env k = env 0) :
    ∀ (names : List String) (st : FetchState) (k : Nat),
      (st.cache = none ∨ st.cache = some (env 0)) →
      waitManifestsAux env names st = waitManifestsFreshAux env names k := by
  intro names
  induction names with
  | nil =>
    intro st k hst
    rfl
  | cons name rest ih =>
    intro st k hst
    by_cases hin : name ∈ env 0
    · have hc := manifestGo_const_found env h name hin (900 / RECHECK_INTERVAL) 0 st hst
      have hf := manifestGoFresh_const_found env h name hin (900 / RECHECK_INTERVAL) 0 k
      simp only [waitManifestsAux, waitManifestsFreshAux, hc, hf]
      exact ih _ (k + 1) (manifestAttempt_const env h st 0 hst).2
    · obtain ⟨st', hc⟩ := manifestGo_const_notfound env h name hin
        (900 / RECHECK_INTERVAL + 1) 0 st hst
      obtain ⟨r, hf⟩ := manifestGoFresh_const_notfound env h name hin
        (900 / RECHECK_INTERVAL + 1) 0 k
      simp only [waitManifestsAux, waitManifestsFreshAux, hc, hf]

theorem podAttempt_const (env : Nat → String → List PodInfo) (L : List PodInfo)
    (hL : ∀ k ns, env k ns = L) (nspace : String) (st : PodFetchState) (tries : Nat)
    (hst : st.cache = none ∨ st.cache = some L) :
    (podAttempt env nspace st tries).1 = L ∧
    ((podAttempt env nspace st tries).2.cache = none ∨
      (podAttempt env nspace st tries).2.cache = some L) := by
  unfold podAttempt
  split
  · rename_i hcond
    rcases hst with hn | hs
    · rw [hn] at hcond
      simp at hcond
    · exact ⟨by simp [hs], Or.inr hs⟩
  · exact ⟨hL st.k nspace, Or.inr (by simp [hL st.k nspace])⟩

theorem podGo_const_scanerr (env : Nat → String → List PodInfo) (L : List PodInfo)
    (hL : ∀ k ns, env k ns = L) (nspace target : String) (m : String)
    (hscan : scanPods target L = Except.error m) :
    ∀ n tries st, (st.cache = none ∨ st.cache = some L) →
      podGo env nspace target tries st n =
        Except.error (PyError.keyError m, tries, (podAttempt env nspace st tries).2) := by
  intro n tries st hst
  have ha := podAttempt_const env L hL nspace st tries hst
  cases n with
  | zero =>
    simp only [podGo]
    rw [ha.1, hscan]
  | succ n =>
    simp only [podGo]
    rw [ha.1, hscan]

theorem podGo_const_found (env : Nat → String → List PodInfo) (L : List PodInfo)
    (hL : ∀ k ns, env k ns = L) (nspace target : String)
    (hscan : scanPods target L = Except.ok true) (n tries : Nat) (st : PodFetchState)
    (hst : st.cache = none ∨ st.cache = some L) :
    podGo env nspace target tries st (n + 1) =
      Except.ok (tries, (podAttempt env nspace st tries).2) := by
  have ha := podAttempt_const env L hL nspace st tries hst
  simp only [podGo]
  rw [ha.1, hscan]

theorem podGo_const_notfound (env : Nat → String → List PodInfo) (L : List PodInfo)
    (hL : ∀ k ns, env k ns = L) (nspace target : String)
    (hscan : scanPods target L = Except.ok false) :
    ∀ n tries st, (st.cache = none ∨ st.cache = some L) →
      ∃ st', podGo env nspace target tries st n =
        Except.error (PyError.timeout ("Timeout waiting for " ++ target ++ " pod"),
          tries + n, st') := by
  intro n
  induction n with
  | zero =>
    intro tries st hst
    have ha := podAttempt_const env L hL nspace st tries hst
    refine ⟨(podAttempt env nspace st tries).2, ?_⟩
    simp only [podGo]
    rw [ha.1, hscan]
    rfl
  | succ n ih =>
    intro tries st hst
    have ha := podAttempt_const env L hL nspace st tries hst
    obtain ⟨st', h'⟩ := ih (tries + 1) _ ha.2
    refine ⟨st', ?_⟩
    simp only [podGo]
    rw [ha.1, hscan, h']
    have e : tries + 1 + n = tries + (n + 1) := by omega
    rw [e]

theorem podGoFresh_const_scanerr (env : Nat → String → List PodInfo) (L : List PodInfo)
    (hL : ∀ k ns, env k ns = L) (nspace target : String) (m : String)
    (hscan : scanPods target L = Except.error m) (n tries k : Nat) :
    podGoFresh env nspace target tries k n =
      Except.error (PyError.keyError m, tries, k + 1) := by
  cases n with
  | zero =>
    simp only [podGoFresh]
    rw [hL k nspace, hscan]
  | succ n =>
    simp only [podGoFresh]
    rw [hL k nspace, hscan]

theorem podGoFresh_const_found (env : Nat → String → List PodInfo) (L : List PodInfo)
    (hL : ∀ k ns, env k ns = L) (nspace target : String)
    (hscan : scanPods target L = Except.ok true) (n tries k : Nat) :
    podGoFresh env nspace target tries k (n + 1) = Except.ok (tries, k + 1) := by
  simp only [podGoFresh]
  rw [hL k nspace, hscan]

theorem podGoFresh_const_notfound (env : Nat → String → List PodInfo) (L : List PodInfo)
    (hL : ∀ k ns, env k ns = L) (nspace target : String)
    (hscan : scanPods target L = Except.ok false) :
    ∀ n tries k, ∃ k', podGoFresh env nspace target tries k n =
      Except.error (PyError.timeout ("Timeout waiting for " ++ target ++ " pod"),
        tries + n, k') := by
  intro n
  induction n with
  | zero =>
    intro tries k
    refine ⟨k + 1, ?_⟩
    simp only [podGoFresh]
    rw [hL k nspace, hscan]
    rfl
  | succ n ih =>
    intro tries k
    obtain ⟨k', h'⟩ := ih (tries + 1) (k + 1)
    refine ⟨k', ?_⟩
    simp only [podGoFresh]
    rw [hL k nspace, hscan, h']
    have e : tries + 1 + n = tries + (n + 1) := by omega
    rw [e]

theorem verifyTargets_const (env : Nat → String → List PodInfo) (L : List PodInfo)
    (hL : ∀ k ns, env k ns = L) (nspace : String) :
    ∀ (targets : List String) (st : PodFetchState) (k : Nat),
      (st.cache = none ∨ st.cache = some L) →
      (∃ st' k', verifyTargets env nspace targets st = Except.ok st' ∧
          verifyTargetsFresh env nspace targets k = Except.ok k' ∧
          (st'.cache = none ∨ st'.cache = some L)) ∨
      (∃ e, verifyTargets env nspace targets st = Except.error e ∧
          verifyTargetsFresh env nspace targets k = Except.error e) := by
  intro targets
  induction targets with
  | nil =>
    intro st k hst
    exact Or.inl ⟨st, k, rfl, rfl, hst⟩
  | cons target rest ih =>
    intro st k hst
    rcases hscan : scanPods target L with m | b
    · refine Or.inr ⟨PyError.keyError m, ?_, ?_⟩
      · simp only [verifyTargets,
          podGo_const_scanerr env L hL nspace target m hscan _ 0 st hst]
      · simp only [verifyTargetsFresh,
          podGoFresh_const_scanerr env L hL nspace target m hscan _ 0 k]
    · cases b with
      | true =>
        have hc := podGo_const_found env L hL nspace target hscan
          (RECHECK_INTERVAL / RECHECK_INTERVAL) 0 st hst
        have hf := podGoFresh_const_found env L hL nspace target hscan
          (RECHECK_INTERVAL / RECHECK_INTERVAL) 0 k
        simp only [verifyTargets, verifyTargetsFresh, hc, hf]
        exact ih _ (k + 1) (podAttempt_const env L hL nspace st 0 hst).2
      | false =>
        obtain ⟨st', hc⟩ := podGo_const_notfound env L hL nspace target hscan
          (RECHECK_INTERVAL / RECHECK_INTERVAL + 1) 0 st hst
        obtain ⟨k', hf⟩ := podGoFresh_const_notfound env L hL nspace target hscan
          (RECHECK_INTERVAL / RECHECK_INTERVAL + 1) 0 k
        refine Or.inr ⟨PyError.timeout ("Timeout waiting for " ++ target ++ " pod"), ?_, ?_⟩
        · simp only [verifyTargets, hc]
        · simp only [verifyTargetsFresh, hf]

theorem verifyOps_const (env : Nat → String → List PodInfo) (L : List PodInfo)
    (hL : ∀ k ns, env k ns = L) :
    ∀ (ops : List OperatorSpec) (st : PodFetchState) (k : Nat),
      (st.cache = none ∨ st.cache = some L) →
      verifyOps env ops st = verifyOpsFresh env ops k := by
  intro ops
  induction ops with
  | nil =>
    intro st k hst
    rfl
  | cons op rest ih =>
    intro st k hst
    rcases verifyTargets_const env L hL op.nspace op.correspondingPods st k hst with
      ⟨st', k', hc, hf, hst'⟩ | ⟨e, hc, hf⟩
    · simp only [verifyOps, verifyOpsFresh, hc, hf]
      exact ih st' k' hst'
    · simp only [verifyOps, verifyOpsFresh, hc, hf]

/-- Claim C7, amended: the first-probe caching of
wait_for_package_manifests and verify_operator_running is
caller-invisible when every probe returns the same result — every
manifest listing equal to the first, every pod listing equal to one
fixed list whatever the namespace; under a probe sequence that varies
over time (or, for pods, across namespaces) the cached and fresh
variants can return different outcomes, so the simplification is not
behavior-preserving in general. -/
theorem cache_invisible_for_constant_env (ops : List OperatorSpec) :
    (∀ env : Nat → List String, (∀ k, env k = env 0) →
        wait_for_package_manifests ops env = wait_for_package_manifests_fresh ops env) ∧
    (∀ (env : Nat → String → List PodInfo) (L : List PodInfo), (∀ k ns, env k ns = L) →
        verify_operator_running ops env = verify_operator_running_fresh ops env) := by
  constructor
  · intro env h
    exact waitManifestsAux_const env h (ops.map (·.name)) ⟨0, none⟩ 0 (Or.inl rfl)
  · intro env L hL
    exact verifyOps_const env L hL ops ⟨0, none⟩ 0 (Or.inl rfl)

/-- Counterexample to C7 as stated: a probe sequence listing both
manifests only on the very first fetch makes the cached run succeed
while the fresh-every-attempt variant times out on the second operator,
so the outcomes differ for the same sequence of probe results. -/
theorem manifest_cache_visible_counterexample :
    wait_for_package_manifests c7Ops c7Env = Except.ok () ∧
    wait_for_package_manifests_fresh c7Ops c7Env =
      Except.error "Package Manifests for b not found" := by
  exact ⟨by decide, by decide⟩

/-- Witness for C7: under a constant probe sequence the two variants
agree. -/
theorem cache_invisible_for_constant_env_witness :
    wait_for_package_manifests c7Ops (fun _ => ["a", "b"]) =
      wait_for_package_manifests_fresh c7Ops (fun _ => ["a", "b"]) :=
  (cache_invisible_for_constant_env c7Ops).1 (fun _ => ["a", "b"]) (fun _ => rfl)

/-- Claim C9: for a pod target after the first one processed,
verify_operator_running's attempt 0 scans the pod list cached from the
previously queried operator's namespace: a started pod whose name
matches, listed only in the first operator's namespace, satisfies the
second operator's check — the run succeeds even though the second
namespace never lists a matching pod, while the fresh-fetching variant
times out on it. -/
theorem verify_cached_pods_cross_namespace (t ns1 ns2 : String) (p : PodInfo)
    (hmatch : strIn t p.name = true)
    (hone : numRunningContainers p = Except.ok 1)
    (hne : ns2 ≠ ns1) :
    verify_operator_running
        [⟨"op1", "ch", "src", ns1, "v", [t]⟩, ⟨"op2", "ch", "src", ns2, "v", [t]⟩]
        (fun _ ns => if ns = ns1 then [p] else []) = Except.ok () ∧
    verify_operator_running_fresh
        [⟨"op1", "ch", "src", ns1, "v", [t]⟩, ⟨"op2", "ch", "src", ns2, "v", [t]⟩]
        (fun _ ns => if ns = ns1 then [p] else []) =
      Except.error (PyError.timeout ("Timeout waiting for " ++ t ++ " pod")) := by
  constructor
  · simp [verify_operator_running, verifyOps, verifyTargets, podGo, podAttempt,
      scanPods, hone, hmatch, hne]
  · simp [verify_operator_running_fresh, verifyOpsFresh, verifyTargetsFresh, podGoFresh,
      scanPods, hone, hmatch, hne]

/-- Witness for C9: concrete names and a concrete started pod. -/
theorem verify_cached_pods_cross_namespace_witness :
    verify_operator_running
        [⟨"op1", "ch", "src", "nsA", "v", ["trustyai-operator"]⟩,
         ⟨"op2", "ch", "src", "nsB", "v", ["trustyai-operator"]⟩]
        (fun _ ns => if ns = "nsA" then [c4PodStarted] else []) = Except.ok () :=
  (verify_cached_pods_cross_namespace "trustyai-operator" "nsA" "nsB" c4PodStarted
    (by decide) (by decide) (by decide)).1

/-- Claim C10: the per-pod readiness check of verify_operator_running
subscripts `status['containerStatuses']` and each container's
`['started']` unconditionally: a probed pod whose status lacks the key
makes the check raise the lookup error — neither skipping the pod nor
timing out. -/
theorem verify_keyerror_on_missing_fields (nm ch src v nspace tgt : String)
    (p : PodInfo) (rest : List PodInfo) (env : Nat → String → List PodInfo)
    (henv : env 0 nspace = p :: rest) :
    (p.containerStatuses = none →
        verify_operator_running [⟨nm, ch, src, nspace, v, [tgt]⟩] env =
          Except.error (PyError.keyError "containerStatuses")) ∧
    (p.containerStatuses = some [⟨none⟩] →
        verify_operator_running [⟨nm, ch, src, nspace, v, [tgt]⟩] env =
          Except.error (PyError.keyError "started")) := by
  constructor
  · intro hcs
    simp [verify_operator_running, verifyOps, verifyTargets, podGo, podAttempt,
      henv, scanPods, numRunningContainers, hcs]
  · intro hcs
    simp [verify_operator_running, verifyOps, verifyTargets, podGo, podAttempt,
      henv, scanPods, numRunningContainers, hcs]

/-- Witness for C10: a probed pod whose status JSON has no
containerStatuses key. -/
theorem verify_keyerror_on_missing_fields_witness :
    verify_operator_running [⟨"op1", "ch", "src", "nsA", "v", ["podA"]⟩]
        (fun _ _ => [⟨"anything", none⟩]) =
      Except.error (PyError.keyError "containerStatuses") :=
  (verify_keyerror_on_missing_fields "op1" "ch" "src" "v" "nsA" "podA"
    ⟨"anything", none⟩ [] (fun _ _ => [⟨"anything", none⟩]) rfl).1 rfl

end SetupCluster
